import Mathlib

/-!
Shallow embedding of `src/main.rs` (a LearnOpenGL-style triangle demo).

The program drives an OpenGL context through FFI calls; we model every GL /
GLFW call the program issues as a constructor of an inductive command type,
and each phase of the program (shader setup, geometry setup, the render loop,
the event handler) as a Lean function producing the trace of commands it
issues, parameterised by the values the drivers/window system return
(compile and link statuses, info-log buffer contents, the elapsed-time clock,
the pending event queue, the uniform location).  Machine floats that the
program only passes through are modelled exactly: the literal constants as
rationals, the time-dependent green channel as a real number
`sin t / 2 + 1/2`.
-/

namespace SboxGL

-- GL enum constants used by the program (values from the `gl` crate).
namespace GLC

def TRIANGLES : Nat := 0x0004

def FLOAT : Nat := 0x1406

def ARRAY_BUFFER : Nat := 0x8892

def STATIC_DRAW : Nat := 0x88E4

def COLOR_BUFFER_BIT : Nat := 0x4000

def VERTEX_SHADER : Nat := 0x8B31

def FRAGMENT_SHADER : Nat := 0x8B30

def COMPILE_STATUS : Nat := 0x8B81

def LINK_STATUS : Nat := 0x8B82

def TRUE : Int := 1

def FALSE : Int := 0

end GLC

/-- One GL / GLFW call issued by the program, with the arguments it passes.
Colour components of `clearColor` are the exact rational values of the
source literals; the components of `uniform4f` are real numbers because the
green channel is `sin` of the elapsed time. -/
inductive GLCmd where
  | clearColor (r g b a : ℚ)
  | clear (mask : Nat)
  | useProgram (p : Nat)
  | bindVertexArray (v : Nat)
  | getUniformLocation (p : Nat) (name : String)
  | uniform4f (loc : Int) (x y z w : ℝ)
  | drawArrays (mode : Nat) (first : Int) (count : Int)
  | viewport (x y w h : Int)
  | genVertexArrays
  | genBuffers
  | bindBuffer (target : Nat) (buf : Nat)
  | bufferData (target : Nat) (size : Nat) (data : List ℚ) (usage : Nat)
  | vertexAttribPointer (index : Nat) (size : Nat) (ty : Nat)
      (normalized : Bool) (stride : Nat) (offset : Nat)
  | enableVertexAttribArray (index : Nat)
  | createShader (kind : Nat)
  | shaderSource (s : Nat)
  | compileShader (s : Nat)
  | getShaderiv (s : Nat) (pname : Nat)
  | getShaderInfoLog (s : Nat) (bufSize : Nat)
  | createProgram
  | attachShader (p s : Nat)
  | linkProgram (p : Nat)
  | getProgramiv (p : Nat) (pname : Nat)
  | getProgramInfoLog (p : Nat) (bufSize : Nat)
  | deleteShader (s : Nat)
  | printDiag (msg : String)
  | swapBuffers
  | pollEvents

/-- Keys, as far as the program distinguishes them (`glfw::Key`). -/
inductive Key where
  | escape
  | other (code : Nat)

/-- Key actions (`glfw::Action`); `rep` stands for `Action::Repeat`. -/
inductive Action where
  | press
  | release
  | rep

/-- Window events delivered by GLFW that the program matches on
(`glfw::WindowEvent`); everything else falls into `other`. -/
inductive WindowEvent where
  | framebufferSize (width height : Int)
  | key (k : Key) (scancode : Int) (a : Action) (mods : Nat)
  | other

/-- The loop state: `running` is `window.should_close() = false`,
`closing` is the flag set to `true` (spec's Running / Closing states). -/
inductive LoopState where
  | running
  | closing
deriving DecidableEq

/-- One arm of the `match event` in `process_events` (src/main.rs:219-229):
a resize sets the viewport, Escape+Press sets the close flag, everything
else is ignored. -/
def process_event (st : LoopState) (e : WindowEvent) : LoopState × List GLCmd :=
  match e with
  | .framebufferSize w h => (st, [.viewport 0 0 w h])
  | .key .escape _ .press _ => (.closing, [])
  | _ => (st, [])

/-- The function `process_events` (src/main.rs:217-231): fold `process_event` over the
drained event queue, concatenating the GL calls issued. -/
def process_events : LoopState → List WindowEvent → LoopState × List GLCmd
  | st, [] => (st, [])
  | st, e :: rest =>
    let r := process_event st e
    let r2 := process_events r.1 rest
    (r2.1, r.2 ++ r2.2)

/-- Is `b` a UTF-8 continuation byte (`0x80 ..= 0xBF`)? -/
def isContByte (b : Nat) : Bool := 0x80 ≤ b && b ≤ 0xBF

/-- UTF-8 validation and decoding of a byte sequence, with exactly the
acceptance conditions of Rust's `str::from_utf8` (RFC 3629: no overlong
forms, no surrogates, nothing above U+10FFFF): `none` iff `from_utf8`
returns `Err`, in which case the program's `.unwrap()` panics. -/
def utf8DecodeList : List Nat → Option (List Char)
  | [] => some []
  | b :: rest =>
    if b ≤ 0x7F then
      match utf8DecodeList rest with
      | some cs => some (Char.ofNat b :: cs)
      | none => none
    else if 0xC2 ≤ b && b ≤ 0xDF then
      match rest with
      | c1 :: rest1 =>
        if isContByte c1 then
          match utf8DecodeList rest1 with
          | some cs => some (Char.ofNat ((b - 0xC0) * 0x40 + (c1 - 0x80)) :: cs)
          | none => none
        else none
      | [] => none
    else if 0xE0 ≤ b && b ≤ 0xEF then
      match rest with
      | c1 :: c2 :: rest2 =>
        -- the first continuation byte range depends on the lead byte:
        -- E0 excludes overlong forms, ED excludes surrogates
        let lo1 : Nat := if b = 0xE0 then 0xA0 else 0x80
        let hi1 : Nat := if b = 0xED then 0x9F else 0xBF
        if (lo1 ≤ c1 && c1 ≤ hi1) && isContByte c2 then
          match utf8DecodeList rest2 with
          | some cs =>
            some (Char.ofNat ((b - 0xE0) * 0x1000 + (c1 - 0x80) * 0x40 + (c2 - 0x80)) :: cs)
          | none => none
        else none
      | _ => none
    else if 0xF0 ≤ b && b ≤ 0xF4 then
      match rest with
      | c1 :: c2 :: c3 :: rest3 =>
        -- F0 excludes overlong forms, F4 caps the range at U+10FFFF
        let lo1 : Nat := if b = 0xF0 then 0x90 else 0x80
        let hi1 : Nat := if b = 0xF4 then 0x8F else 0xBF
        if ((lo1 ≤ c1 && c1 ≤ hi1) && isContByte c2) && isContByte c3 then
          match utf8DecodeList rest3 with
          | some cs =>
            some (Char.ofNat ((b - 0xF0) * 0x40000 + (c1 - 0x80) * 0x1000 +
              (c2 - 0x80) * 0x40 + (c3 - 0x80)) :: cs)
          | none => none
        else none
      | _ => none
    else none

/-- Rust `str::from_utf8` followed by `.unwrap()`-or-panic, as a `String`. -/
def utf8Decode : List Nat → Option String :=
  fun bytes => (utf8DecodeList bytes).map String.mk

/-- Capacity of the info-log vector: `Vec::with_capacity(512)` allocates a
buffer of (at least) 512 bytes (src/main.rs:37 and 57). -/
def infoLogCapacity : Nat := 512

/-- Length the vector is set to: `info_log.set_len(512 - 1)`
(src/main.rs:38 and 58); this is the slice later passed to `from_utf8`. -/
def infoLogSliceLen : Nat := 512 - 1

/-- The `maxLength` argument passed to `gl::GetShaderInfoLog` /
`gl::GetProgramInfoLog` (src/main.rs:43 and 63): the driver writes at most
this many bytes into the buffer. -/
def infoLogMaxLenArg : Nat := 512

/-- The diagnostic line printed on compile failure (src/main.rs:47-51). -/
def compileErrorMessage (label : String) (log : String) : String :=
  "ERROR: " ++ label ++ " shader compile failed\n" ++ log

/-- The diagnostic line printed on link failure (src/main.rs:67-71); the
source misspells "linking" as "linkng". -/
def linkErrorMessage (label : String) (log : String) : String :=
  "ERROR: " ++ label ++ " linkng failed\n" ++ log

/-- The function `check_shader_compile_error` (src/main.rs:35-53), as the trace of calls
it makes.  `success` is the `COMPILE_STATUS` value the driver stores;
`buf` is the content of the 511-byte info-log slice after the
`GetShaderInfoLog` call (driver-controlled, so a parameter).  Result
`none` models the panic of `str::from_utf8(..).unwrap()` on invalid
UTF-8; `some tr` is a normal return with trace `tr`. -/
def check_shader_compile_error (label : String) (shader : Nat)
    (success : Int) (buf : List Nat) : Option (List GLCmd) :=
  if success ≠ GLC.TRUE then
    match utf8Decode buf with
    | some log =>
      some [.getShaderiv shader GLC.COMPILE_STATUS,
            .getShaderInfoLog shader infoLogMaxLenArg,
            .printDiag (compileErrorMessage label log)]
    | none => none
  else
    some [.getShaderiv shader GLC.COMPILE_STATUS]

/-- The function `check_linking_error` (src/main.rs:55-73), same conventions as
`check_shader_compile_error` but for `LINK_STATUS` on a program object. -/
def check_linking_error (label : String) (program : Nat)
    (success : Int) (buf : List Nat) : Option (List GLCmd) :=
  if success ≠ GLC.TRUE then
    match utf8Decode buf with
    | some log =>
      some [.getProgramiv program GLC.LINK_STATUS,
            .getProgramInfoLog program infoLogMaxLenArg,
            .printDiag (linkErrorMessage label log)]
    | none => none
  else
    some [.getProgramiv program GLC.LINK_STATUS]

/-- The diagnostic lines a trace writes (its `println!` output). -/
def printedOf (tr : List GLCmd) : List String :=
  tr.filterMap fun c => match c with
    | .printDiag m => some m
    | _ => none

/-- The shader-program build block of `main` (src/main.rs:105-133): create
and compile both shaders, check each, create the program, attach, link,
check, then delete both shaders.  Parameters are the handles the driver
returns and, for each of the three status checks, the status value and the
info-log buffer content.  `none` when one of the checks panics (the rest
of the block then never runs). -/
def shaderProgramSetup (vs fs prog : Nat)
    (vsStatus fsStatus linkStatus : Int)
    (vsBuf fsBuf linkBuf : List Nat) : Option (List GLCmd) :=
  match check_shader_compile_error "vertex" vs vsStatus vsBuf with
  | none => none
  | some c1 =>
    match check_shader_compile_error "fragment" fs fsStatus fsBuf with
    | none => none
    | some c2 =>
      match check_linking_error "link" prog linkStatus linkBuf with
      | none => none
      | some c3 =>
        some ([.createShader GLC.VERTEX_SHADER, .shaderSource vs, .compileShader vs]
          ++ c1
          ++ [.createShader GLC.FRAGMENT_SHADER, .shaderSource fs, .compileShader fs]
          ++ c2
          ++ [.createProgram, .attachShader prog vs, .attachShader prog fs,
              .linkProgram prog]
          ++ c3
          ++ [.deleteShader vs, .deleteShader fs])

/-- The 9-float triangle (src/main.rs:139-143), exact values. -/
def vertices : List ℚ := [-0.5, -0.5, 0.0, 0.5, -0.5, 0.0, 0.0, 0.5, 0.0]

/-- Rust `mem::size_of::<GLfloat>()`. -/
def sizeofGLfloat : Nat := 4

/-- The geometry-setup block of `main` (src/main.rs:135-179), as the trace
of GL calls with the handles `vao`, `vbo` the driver returns: bind the VAO
first, then the VBO, upload the 9 floats with `STATIC_DRAW`, declare and
enable attribute 0, then unbind both. -/
def geometryBufferBuild (vao vbo : Nat) : List GLCmd :=
  [.genVertexArrays,
   .genBuffers,
   .bindVertexArray vao,
   .bindBuffer GLC.ARRAY_BUFFER vbo,
   .bufferData GLC.ARRAY_BUFFER (vertices.length * sizeofGLfloat) vertices GLC.STATIC_DRAW,
   .vertexAttribPointer 0 3 GLC.FLOAT false (3 * sizeofGLfloat) 0,
   .enableVertexAttribArray 0,
   .bindBuffer GLC.ARRAY_BUFFER 0,
   .bindVertexArray 0]

/-- The green channel computed each frame (src/main.rs:201):
`time_value.sin() / 2.0 + 0.5`. -/
noncomputable def green_value (t : ℝ) : ℝ := Real.sin t / 2 + 0.5

/-- The GL calls of the render block of one loop iteration
(src/main.rs:190-208), given the elapsed time `t` read from the clock,
the program and VAO handles, and the uniform location the driver returns
for `"ourColor"`. -/
noncomputable def renderCmds (t : ℝ) (prog vao : Nat) (loc : Int) : List GLCmd :=
  [.clearColor 0.2 0.3 0.3 1.0,
   .clear GLC.COLOR_BUFFER_BIT,
   .useProgram prog,
   .bindVertexArray vao,
   .getUniformLocation prog "ourColor",
   .uniform4f loc 0 (green_value t) 0 1,
   .drawArrays GLC.TRIANGLES 0 3]

/-- One full iteration of the `while` body (src/main.rs:183-214): drain
events, render, swap buffers, poll events; returns the new loop state and
the trace of calls. -/
noncomputable def frameIteration (st : LoopState) (evs : List WindowEvent)
    (t : ℝ) (prog vao : Nat) (loc : Int) : LoopState × List GLCmd :=
  let p := process_events st evs
  (p.1, p.2 ++ renderCmds t prog vao loc ++ [.swapBuffers, .pollEvents])

/-- The render loop `while !window.should_close()` (src/main.rs:183),
fuel-indexed: `evs n` is the event queue drained on iteration `n`, and
`clock n` the elapsed time read on iteration `n`. -/
noncomputable def frameLoop : Nat → LoopState → (Nat → List WindowEvent) →
    (Nat → ℝ) → Nat → Nat → Int → List GLCmd
  | 0, _, _, _, _, _, _ => []
  | _ + 1, .closing, _, _, _, _, _ => []
  | n + 1, .running, evs, clock, prog, vao, loc =>
    let r := frameIteration .running (evs 0) (clock 0) prog vao loc
    r.2 ++ frameLoop n r.1 (fun i => evs (i + 1)) (fun i => clock (i + 1)) prog vao loc

/-! ### Command classifiers -/

def isDrawCmd : GLCmd → Bool
  | .drawArrays _ _ _ => true
  | _ => false

def isUniform4fCmd : GLCmd → Bool
  | .uniform4f _ _ _ _ _ => true
  | _ => false

def isGetUniformLocationCmd : GLCmd → Bool
  | .getUniformLocation _ _ => true
  | _ => false

def isDeleteShaderCmd : GLCmd → Bool
  | .deleteShader _ => true
  | _ => false

def isBindVertexArrayCmd : GLCmd → Bool
  | .bindVertexArray _ => true
  | _ => false

def isBindBufferCmd : GLCmd → Bool
  | .bindBuffer _ _ => true
  | _ => false

def isBufferDataCmd : GLCmd → Bool
  | .bufferData _ _ _ _ => true
  | _ => false

def isVertexAttribPointerCmd : GLCmd → Bool
  | .vertexAttribPointer _ _ _ _ _ _ => true
  | _ => false

/-! ### Helper lemmas about the event handler -/

theorem process_event_cmds (st : LoopState) (e : WindowEvent) :
    ∀ c ∈ (process_event st e).2, ∃ w h, c = GLCmd.viewport 0 0 w h := by
  cases e with
  | framebufferSize w h =>
    intro c hc
    simp only [process_event, List.mem_singleton] at hc
    exact ⟨w, h, hc⟩
  | key k sc a mods => cases k <;> cases a <;> simp [process_event]
  | other => simp [process_event]

theorem process_events_cmds (st : LoopState) (evs : List WindowEvent) :
    ∀ c ∈ (process_events st evs).2, ∃ w h, c = GLCmd.viewport 0 0 w h := by
  induction evs generalizing st with
  | nil => simp [process_events]
  | cons e rest ih =>
    intro c hc
    simp only [process_events, List.mem_append] at hc
    rcases hc with hc | hc
    · exact process_event_cmds st e c hc
    · exact ih _ c hc

theorem process_events_filter_nil (st : LoopState) (evs : List WindowEvent)
    (p : GLCmd → Bool) (hp : ∀ w h, p (GLCmd.viewport 0 0 w h) = false) :
    (process_events st evs).2.filter p = [] := by
  rw [List.filter_eq_nil_iff]
  intro c hc
  obtain ⟨w, h, rfl⟩ := process_events_cmds st evs c hc
  simp [hp]

theorem process_event_fst_closing (e : WindowEvent) :
    (process_event .closing e).1 = .closing := by
  cases e with
  | framebufferSize w h => rfl
  | key k sc a mods => cases k <;> cases a <;> rfl
  | other => rfl

theorem process_events_fst_closing (evs : List WindowEvent) :
    (process_events .closing evs).1 = .closing := by
  induction evs with
  | nil => rfl
  | cons e rest ih =>
    simp only [process_events]
    rw [process_event_fst_closing]
    exact ih

theorem frameIteration_snd (st : LoopState) (evs : List WindowEvent) (t : ℝ)
    (prog vao : Nat) (loc : Int) :
    (frameIteration st evs t prog vao loc).2
      = (process_events st evs).2 ++ renderCmds t prog vao loc
        ++ [.swapBuffers, .pollEvents] := rfl

/-! ### Claim theorems -/

/-- C1: on every frame iteration with elapsed time `t`, the only uniform
upload is a 4-component vector `(0, sin t / 2 + 0.5, 0, 1)` to the location
looked up by name `"ourColor"` on the active program (the only location
lookup of the frame), and the green component lies in `[0, 1]` for every
real `t`. -/
theorem uniform_is_green_sin (st : LoopState) (evs : List WindowEvent)
    (t : ℝ) (prog vao : Nat) (loc : Int) :
    (frameIteration st evs t prog vao loc).2.filter isUniform4fCmd
      = [.uniform4f loc 0 (Real.sin t / 2 + 0.5) 0 1]
    ∧ (frameIteration st evs t prog vao loc).2.filter isGetUniformLocationCmd
      = [.getUniformLocation prog "ourColor"]
    ∧ green_value t = Real.sin t / 2 + 0.5
    ∧ 0 ≤ green_value t ∧ green_value t ≤ 1 := by
  refine ⟨?_, ?_, rfl, ?_, ?_⟩
  · rw [frameIteration_snd, List.filter_append, List.filter_append,
      process_events_filter_nil st evs _ (fun w h => rfl)]
    rfl
  · rw [frameIteration_snd, List.filter_append, List.filter_append,
      process_events_filter_nil st evs _ (fun w h => rfl)]
    rfl
  · unfold green_value
    have h := Real.neg_one_le_sin t
    norm_num
    linarith
  · unfold green_value
    have h := Real.sin_le_one t
    norm_num
    linarith

/-- C2: each iteration of the frame loop taken in the `running` state
performs, in order: the drained-event commands, clear to (0.2, 0.3, 0.3, 1),
program activation, VAO bind, the uniform lookup and upload, exactly one
draw of 3 vertices from index 0, then buffer swap and event poll; and a
running iteration of `frameLoop` is exactly such an iteration followed by
the rest of the loop. -/
theorem frame_iteration_order (evs : List WindowEvent) (t : ℝ)
    (prog vao : Nat) (loc : Int) :
    (frameIteration .running evs t prog vao loc).2
      = (process_events .running evs).2 ++
        [.clearColor 0.2 0.3 0.3 1.0,
         .clear GLC.COLOR_BUFFER_BIT,
         .useProgram prog,
         .bindVertexArray vao,
         .getUniformLocation prog "ourColor",
         .uniform4f loc 0 (green_value t) 0 1,
         .drawArrays GLC.TRIANGLES 0 3,
         .swapBuffers, .pollEvents]
    ∧ (frameIteration .running evs t prog vao loc).2.filter isDrawCmd
      = [.drawArrays GLC.TRIANGLES 0 3]
    ∧ (∀ n evS clock,
        frameLoop (n + 1) .running evS clock prog vao loc
          = (frameIteration .running (evS 0) (clock 0) prog vao loc).2
            ++ frameLoop n (frameIteration .running (evS 0) (clock 0) prog vao loc).1
                 (fun i => evS (i + 1)) (fun i => clock (i + 1)) prog vao loc) := by
  refine ⟨?_, ?_, fun n evS clock => rfl⟩
  · rw [frameIteration_snd]
    simp [List.append_assoc]
    rfl
  · rw [frameIteration_snd, List.filter_append, List.filter_append,
      process_events_filter_nil .running evs _ (fun w h => rfl)]
    rfl

/-- C3: an Escape key press while running moves the loop state to
`closing`; once `closing`, no sequence of further events processed by the
event handler brings the state back to `running`; and the loop body never
executes again once the state is `closing` (the loop terminates). -/
theorem escape_closes_loop :
    (∀ sc mods, (process_event .running (.key .escape sc .press mods)).1 = .closing)
    ∧ (∀ e, (process_event .closing e).1 = .closing)
    ∧ (∀ evs, (process_events .closing evs).1 = .closing)
    ∧ (∀ fuel evs clock prog vao loc,
        frameLoop fuel .closing evs clock prog vao loc = []) := by
  refine ⟨fun sc mods => rfl, process_event_fst_closing,
    process_events_fst_closing, fun fuel evs clock prog vao loc => ?_⟩
  cases fuel <;> rfl

/-- C9: processing a `FramebufferSize (w, h)` event with positive `w`, `h`
issues exactly the call setting the viewport to `(0, 0, w, h)` and leaves
the loop state unchanged. -/
theorem resize_sets_viewport (st : LoopState) (w h : Int)
    (hw : 0 < w) (hh : 0 < h) :
    process_event st (.framebufferSize w h) = (st, [.viewport 0 0 w h]) := rfl

/-- Witness for C9 at the degenerate 1×1 size. -/
theorem resize_sets_viewport_witness :
    (0 : Int) < 1 ∧
      process_event .running (.framebufferSize 1 1)
        = (.running, [.viewport 0 0 1 1]) :=
  ⟨by decide, resize_sets_viewport .running 1 1 (by decide) (by decide)⟩

/-- C6: the geometry setup uploads exactly the 9 vertex floats
(-0.5,-0.5,0, 0.5,-0.5,0, 0,0.5,0), 36 bytes, with the `STATIC_DRAW`
usage hint; declares exactly one vertex attribute, at index 0, with 3
float components, not normalized, stride 3 floats (12 bytes), offset 0;
enables attribute 0; and binds the vertex array object strictly before the
buffer object. -/
theorem geometry_build_layout (vao vbo : Nat) :
    vertices = [-0.5, -0.5, 0.0, 0.5, -0.5, 0.0, 0.0, 0.5, 0.0]
    ∧ vertices.length = 9
    ∧ (geometryBufferBuild vao vbo).filter isBufferDataCmd
      = [.bufferData GLC.ARRAY_BUFFER (9 * 4) vertices GLC.STATIC_DRAW]
    ∧ (geometryBufferBuild vao vbo).filter isVertexAttribPointerCmd
      = [.vertexAttribPointer 0 3 GLC.FLOAT false (3 * 4) 0]
    ∧ GLCmd.enableVertexAttribArray 0 ∈ geometryBufferBuild vao vbo
    ∧ (geometryBufferBuild vao vbo).findIdx isBindVertexArrayCmd
        < (geometryBufferBuild vao vbo).findIdx isBindBufferCmd := by
  refine ⟨rfl, rfl, rfl, rfl, ?_, ?_⟩
  · simp [geometryBufferBuild]
  · show (2 : Nat) < 3
    decide

/-- Counterexample to C4 as stated: with compile status `FALSE` and an
info-log buffer whose first byte is the invalid UTF-8 byte `0x80` (the
rest blank-padded to the 511-byte slice length), the routine hits the
`str::from_utf8(..).unwrap()` panic (`none`) instead of returning
normally with a diagnostic. -/
theorem compile_diag_panic_cex :
    GLC.FALSE ≠ GLC.TRUE ∧
      check_shader_compile_error "vertex" 7 GLC.FALSE
        (0x80 :: List.replicate 510 0x20) = none := by
  refine ⟨by decide, rfl⟩

/-- C4 (amended): if the compile status is a failure and the info-log
bytes are valid UTF-8 decoding to `log`, the routine returns normally and
prints exactly one diagnostic, which is non-empty and contains the stage
label; if the status is success, it returns normally and prints nothing. -/
theorem compile_diag_on_failure (label : String) (shader : Nat)
    (success : Int) (buf : List Nat) (log : String)
    (hutf : utf8Decode buf = some log) :
    (success ≠ GLC.TRUE →
      check_shader_compile_error label shader success buf
        = some [.getShaderiv shader GLC.COMPILE_STATUS,
                .getShaderInfoLog shader infoLogMaxLenArg,
                .printDiag (compileErrorMessage label log)]
      ∧ printedOf [.getShaderiv shader GLC.COMPILE_STATUS,
                   .getShaderInfoLog shader infoLogMaxLenArg,
                   .printDiag (compileErrorMessage label log)]
          = [compileErrorMessage label log]
      ∧ (compileErrorMessage label log).length ≠ 0
      ∧ ∃ s1 s2, compileErrorMessage label log = s1 ++ label ++ s2)
    ∧ (success = GLC.TRUE →
      check_shader_compile_error label shader success buf
        = some [.getShaderiv shader GLC.COMPILE_STATUS]
      ∧ printedOf [(.getShaderiv shader GLC.COMPILE_STATUS : GLCmd)] = []) := by
  constructor
  · intro hfail
    refine ⟨?_, rfl, ?_, "ERROR: ", " shader compile failed\n" ++ log,
      by rw [compileErrorMessage, String.append_assoc]⟩
    · unfold check_shader_compile_error
      rw [if_pos hfail, hutf]
    · intro hlen
      have h7 : ("ERROR: " : String).length = 7 := rfl
      rw [compileErrorMessage, String.length_append, String.length_append,
        String.length_append, h7] at hlen
      omega
  · intro hsucc
    refine ⟨?_, rfl⟩
    unfold check_shader_compile_error
    rw [if_neg (by simp [hsucc])]

/-- Witness for C4's amended theorem: failure status 0, log bytes "Hi". -/
theorem compile_diag_on_failure_witness :
    utf8Decode [72, 105] = some "Hi" ∧
      ((0 : Int) ≠ GLC.TRUE →
        check_shader_compile_error "vertex" 7 0 [72, 105]
          = some [.getShaderiv 7 GLC.COMPILE_STATUS,
                  .getShaderInfoLog 7 infoLogMaxLenArg,
                  .printDiag (compileErrorMessage "vertex" "Hi")]
        ∧ printedOf [.getShaderiv 7 GLC.COMPILE_STATUS,
                     .getShaderInfoLog 7 infoLogMaxLenArg,
                     .printDiag (compileErrorMessage "vertex" "Hi")]
            = [compileErrorMessage "vertex" "Hi"]
        ∧ (compileErrorMessage "vertex" "Hi").length ≠ 0
        ∧ ∃ s1 s2, compileErrorMessage "vertex" "Hi" = s1 ++ "vertex" ++ s2)
      ∧ ((0 : Int) = GLC.TRUE →
        check_shader_compile_error "vertex" 7 0 [72, 105]
          = some [.getShaderiv 7 GLC.COMPILE_STATUS]
        ∧ printedOf [(.getShaderiv 7 GLC.COMPILE_STATUS : GLCmd)] = []) :=
  ⟨rfl, compile_diag_on_failure "vertex" 7 0 [72, 105] "Hi" rfl⟩

/-- Counterexample to C5 as stated: with link status `FALSE` and an
info-log buffer starting with the invalid UTF-8 byte `0x80` (blank-padded
to the 511-byte slice length), the routine hits the
`str::from_utf8(..).unwrap()` panic (`none`) instead of returning
normally with a diagnostic. -/
theorem link_diag_panic_cex :
    GLC.FALSE ≠ GLC.TRUE ∧
      check_linking_error "link" 9 GLC.FALSE
        (0x80 :: List.replicate 510 0x20) = none := by
  refine ⟨by decide, rfl⟩

/-- C5 (amended): if the link status is a failure and the info-log bytes
are valid UTF-8 decoding to `log`, the routine returns normally and prints
exactly one non-empty diagnostic that contains the label (`"link"` at the
call site) and ends with the driver info log. -/
theorem link_diag_on_failure (label : String) (program : Nat)
    (success : Int) (buf : List Nat) (log : String)
    (hfail : success ≠ GLC.TRUE) (hutf : utf8Decode buf = some log) :
    check_linking_error label program success buf
      = some [.getProgramiv program GLC.LINK_STATUS,
              .getProgramInfoLog program infoLogMaxLenArg,
              .printDiag (linkErrorMessage label log)]
    ∧ printedOf [.getProgramiv program GLC.LINK_STATUS,
                 .getProgramInfoLog program infoLogMaxLenArg,
                 .printDiag (linkErrorMessage label log)]
        = [linkErrorMessage label log]
    ∧ (linkErrorMessage label log).length ≠ 0
    ∧ (∃ s1 s2, linkErrorMessage label log = s1 ++ label ++ s2)
    ∧ (∃ s3, linkErrorMessage label log = s3 ++ log) := by
  refine ⟨?_, rfl, ?_, ⟨"ERROR: ", " linkng failed\n" ++ log,
      by rw [linkErrorMessage, String.append_assoc]⟩,
    ⟨"ERROR: " ++ label ++ " linkng failed\n", rfl⟩⟩
  · unfold check_linking_error
    rw [if_pos hfail, hutf]
  · intro hlen
    have h7 : ("ERROR: " : String).length = 7 := rfl
    rw [linkErrorMessage, String.length_append, String.length_append,
      String.length_append, h7] at hlen
    omega

/-- Witness for C5's amended theorem: label "link" (the call-site label),
failure status 0, log bytes "x". -/
theorem link_diag_on_failure_witness :
    (0 : Int) ≠ GLC.TRUE ∧ utf8Decode [120] = some "x" ∧
      (check_linking_error "link" 9 0 [120]
        = some [.getProgramiv 9 GLC.LINK_STATUS,
                .getProgramInfoLog 9 infoLogMaxLenArg,
                .printDiag (linkErrorMessage "link" "x")]
      ∧ printedOf [.getProgramiv 9 GLC.LINK_STATUS,
                   .getProgramInfoLog 9 infoLogMaxLenArg,
                   .printDiag (linkErrorMessage "link" "x")]
          = [linkErrorMessage "link" "x"]
      ∧ (linkErrorMessage "link" "x").length ≠ 0
      ∧ (∃ s1 s2, linkErrorMessage "link" "x" = s1 ++ "link" ++ s2)
      ∧ (∃ s3, linkErrorMessage "link" "x" = s3 ++ "x")) :=
  ⟨by decide, rfl, link_diag_on_failure "link" 9 0 [120] "x" (by decide) rfl⟩

/-- C10: if the status check fails and the 511-byte info-log slice is not
valid UTF-8, both diagnostic routines panic (`none`) instead of logging
and returning; the log-and-continue path is total only on UTF-8 logs. -/
theorem invalid_utf8_log_panics (label : String) (shader program : Nat)
    (success : Int) (buf : List Nat)
    (hfail : success ≠ GLC.TRUE) (hbad : utf8Decode buf = none) :
    check_shader_compile_error label shader success buf = none
    ∧ check_linking_error label program success buf = none := by
  constructor
  · unfold check_shader_compile_error
    rw [if_pos hfail, hbad]
  · unfold check_linking_error
    rw [if_pos hfail, hbad]

/-- Witness for C10 at the lone continuation byte `0x80`. -/
theorem invalid_utf8_log_panics_witness :
    (0 : Int) ≠ GLC.TRUE ∧ utf8Decode [0x80] = none ∧
      (check_shader_compile_error "vertex" 7 0 [0x80] = none
      ∧ check_linking_error "link" 9 0 [0x80] = none) :=
  ⟨by decide, rfl, invalid_utf8_log_panics "vertex" 7 9 0 [0x80] (by decide) rfl⟩

/-- C8: the info-log vector is allocated with capacity 512 — at least the
512-byte `maxLength` both `GetShaderInfoLog` and `GetProgramInfoLog` are
told — so the driver never writes past the end of the allocation; every
info-log request either routine issues asks for at most the capacity. -/
theorem infolog_buffer_in_bounds :
    infoLogMaxLenArg ≤ infoLogCapacity
    ∧ 512 ≤ infoLogCapacity
    ∧ infoLogSliceLen < infoLogCapacity
    ∧ (∀ label shader success buf tr n,
        check_shader_compile_error label shader success buf = some tr →
        GLCmd.getShaderInfoLog shader n ∈ tr → n ≤ infoLogCapacity)
    ∧ (∀ label program success buf tr n,
        check_linking_error label program success buf = some tr →
        GLCmd.getProgramInfoLog program n ∈ tr → n ≤ infoLogCapacity) := by
  refine ⟨by decide, by decide, by decide, ?_, ?_⟩
  · intro label shader success buf tr n h hmem
    unfold check_shader_compile_error at h
    split at h
    · cases hd : utf8Decode buf <;> rw [hd] at h
      · exact absurd h (by simp)
      · obtain rfl := Option.some.inj h
        simp only [List.mem_cons, List.not_mem_nil, or_false] at hmem
        rcases hmem with h1 | h1 | h1
        · exact absurd h1 (by simp)
        · obtain ⟨-, rfl⟩ := GLCmd.getShaderInfoLog.inj h1
          decide
        · exact absurd h1 (by simp)
    · obtain rfl := Option.some.inj h
      simp only [List.mem_cons, List.not_mem_nil, or_false] at hmem
      exact absurd hmem (by simp)
  · intro label program success buf tr n h hmem
    unfold check_linking_error at h
    split at h
    · cases hd : utf8Decode buf <;> rw [hd] at h
      · exact absurd h (by simp)
      · obtain rfl := Option.some.inj h
        simp only [List.mem_cons, List.not_mem_nil, or_false] at hmem
        rcases hmem with h1 | h1 | h1
        · exact absurd h1 (by simp)
        · obtain ⟨-, rfl⟩ := GLCmd.getProgramInfoLog.inj h1
          decide
        · exact absurd h1 (by simp)
    · obtain rfl := Option.some.inj h
      simp only [List.mem_cons, List.not_mem_nil, or_false] at hmem
      exact absurd hmem (by simp)

/-- Witness for C8: the quantified parts applied at a concrete failing
check whose trace contains the 512-byte info-log request. -/
theorem infolog_buffer_in_bounds_witness :
    (512 : Nat) ≤ infoLogCapacity :=
  infolog_buffer_in_bounds.2.2.2.1 "vertex" 7 0 [] _ 512 rfl
    (List.mem_cons_of_mem _ (List.mem_cons_self _ _))

theorem check_shader_compile_error_no_delete (label : String) (sh : Nat)
    (s : Int) (buf : List Nat) (c : List GLCmd)
    (h : check_shader_compile_error label sh s buf = some c) :
    ∀ x ∈ c, isDeleteShaderCmd x = false := by
  unfold check_shader_compile_error at h
  split at h
  · cases hd : utf8Decode buf <;> rw [hd] at h
    · exact absurd h (by simp)
    · obtain rfl := Option.some.inj h
      intro x hx
      simp only [List.mem_cons, List.not_mem_nil, or_false] at hx
      rcases hx with rfl | rfl | rfl <;> rfl
  · obtain rfl := Option.some.inj h
    intro x hx
    simp only [List.mem_cons, List.not_mem_nil, or_false] at hx
    obtain rfl := hx
    rfl

theorem check_linking_error_no_delete (label : String) (p : Nat)
    (s : Int) (buf : List Nat) (c : List GLCmd)
    (h : check_linking_error label p s buf = some c) :
    ∀ x ∈ c, isDeleteShaderCmd x = false := by
  unfold check_linking_error at h
  split at h
  · cases hd : utf8Decode buf <;> rw [hd] at h
    · exact absurd h (by simp)
    · obtain rfl := Option.some.inj h
      intro x hx
      simp only [List.mem_cons, List.not_mem_nil, or_false] at hx
      rcases hx with rfl | rfl | rfl <;> rfl
  · obtain rfl := Option.some.inj h
    intro x hx
    simp only [List.mem_cons, List.not_mem_nil, or_false] at hx
    obtain rfl := hx
    rfl

/-- C7: whenever the shader-program setup block completes (returns a
trace), that trace ends with the deletion of both compiled shader handles,
the link call lies strictly before them, and no shader is deleted anywhere
earlier — both shaders are freed exactly once, after the link attempt,
whatever the three status checks reported. -/
theorem shaders_deleted_after_link (vs fs prog : Nat)
    (s1 s2 s3 : Int) (b1 b2 b3 : List Nat) (tr : List GLCmd)
    (h : shaderProgramSetup vs fs prog s1 s2 s3 b1 b2 b3 = some tr) :
    ∃ pre, tr = pre ++ [.deleteShader vs, .deleteShader fs]
      ∧ GLCmd.linkProgram prog ∈ pre
      ∧ ∀ c ∈ pre, isDeleteShaderCmd c = false := by
  unfold shaderProgramSetup at h
  cases h1 : check_shader_compile_error "vertex" vs s1 b1 <;> rw [h1] at h
  case none => exact absurd h (by simp)
  case some c1 =>
  cases h2 : check_shader_compile_error "fragment" fs s2 b2 <;> rw [h2] at h
  case none => exact absurd h (by simp)
  case some c2 =>
  cases h3 : check_linking_error "link" prog s3 b3 <;> rw [h3] at h
  case none => exact absurd h (by simp)
  case some c3 =>
  obtain rfl := Option.some.inj h
  refine ⟨[.createShader GLC.VERTEX_SHADER, .shaderSource vs, .compileShader vs]
      ++ c1
      ++ [.createShader GLC.FRAGMENT_SHADER, .shaderSource fs, .compileShader fs]
      ++ c2
      ++ [.createProgram, .attachShader prog vs, .attachShader prog fs,
          .linkProgram prog]
      ++ c3, by simp [List.append_assoc], by simp, ?_⟩
  intro c hc
  simp only [List.mem_append] at hc
  rcases hc with ((((hc | hc) | hc) | hc) | hc) | hc
  · simp only [List.mem_cons, List.not_mem_nil, or_false] at hc
    rcases hc with rfl | rfl | rfl <;> rfl
  · exact check_shader_compile_error_no_delete _ _ _ _ _ h1 c hc
  · simp only [List.mem_cons, List.not_mem_nil, or_false] at hc
    rcases hc with rfl | rfl | rfl <;> rfl
  · exact check_shader_compile_error_no_delete _ _ _ _ _ h2 c hc
  · simp only [List.mem_cons, List.not_mem_nil, or_false] at hc
    rcases hc with rfl | rfl | rfl | rfl <;> rfl
  · exact check_linking_error_no_delete _ _ _ _ _ h3 c hc

/-- Witness for C7: handles vertex = 1, fragment = 2, program = 3, all
three statuses successful, empty log buffers. -/
theorem shaders_deleted_after_link_witness :
    ∃ pre,
      ([.createShader GLC.VERTEX_SHADER, .shaderSource 1, .compileShader 1,
        .getShaderiv 1 GLC.COMPILE_STATUS,
        .createShader GLC.FRAGMENT_SHADER, .shaderSource 2, .compileShader 2,
        .getShaderiv 2 GLC.COMPILE_STATUS,
        .createProgram, .attachShader 3 1, .attachShader 3 2, .linkProgram 3,
        .getProgramiv 3 GLC.LINK_STATUS,
        .deleteShader 1, .deleteShader 2] : List GLCmd)
        = pre ++ [.deleteShader 1, .deleteShader 2]
      ∧ GLCmd.linkProgram 3 ∈ pre
      ∧ ∀ c ∈ pre, isDeleteShaderCmd c = false :=
  shaders_deleted_after_link 1 2 3 GLC.TRUE GLC.TRUE GLC.TRUE [] [] [] _ rfl

end SboxGL
